import Mathlib

namespace QbitManage

/-!
Verification of the run orchestrator and scheduling engine of qbit_manage
(src/qbit_manage.py) against its specification.

The Python module is shallowly embedded: the per-run counter dictionary
`stats` becomes the structure `RunStats`; the summary construction of
`start` (lines 540-573) becomes `stats_summary`; the pipeline dispatch
block (lines 489-538) becomes `run_pipeline`; scheduling helpers
`schedule_every_x_minutes` and `schedule_from_cron` are modelled over a
discrete minute-valued clock, with the external `croniter` library
modelled by an executable standard 5-field cron parser and matcher;
the `__main__` polling loop (lines 682-687) becomes the fuel-indexed
`main_loop`.
-/

/-- The per-run counter dictionary `stats` initialised at the top of
`start` (src/qbit_manage.py lines 436-454): a fixed set of named
non-negative integer counters. -/
structure RunStats where
  added : Nat
  deleted : Nat
  deleted_contents : Nat
  resumed : Nat
  rechecked : Nat
  orphaned : Nat
  recycle_emptied : Nat
  orphaned_emptied : Nat
  tagged : Nat
  categorized : Nat
  rem_unreg : Nat
  tagged_tracker_error : Nat
  untagged_tracker_error : Nat
  tagged_noHL : Nat
  untagged_noHL : Nat
  updated_share_limits : Nat
  cleaned_share_limits : Nat
deriving DecidableEq, Repr

/-- The zeroed `stats` dictionary created at the start of every run
(src/qbit_manage.py lines 436-454). -/
def init_stats : RunStats :=
  { added := 0, deleted := 0, deleted_contents := 0, resumed := 0
    rechecked := 0, orphaned := 0, recycle_emptied := 0, orphaned_emptied := 0
    tagged := 0, categorized := 0, rem_unreg := 0, tagged_tracker_error := 0
    untagged_tracker_error := 0, tagged_noHL := 0, untagged_noHL := 0
    updated_share_limits := 0, cleaned_share_limits := 0 }

/-- The two configuration-dependent tag names interpolated into summary
lines: `cfg.tracker_error_tag` and `cfg.nohardlinks_tag`. -/
structure TagNames where
  tracker_error_tag : String
  nohardlinks_tag : String
deriving DecidableEq, Repr

/-- The `stats_summary` list built by `start` (src/qbit_manage.py lines
540-573): one conditional append per counter, in exactly the source's
textual order. -/
def stats_summary (t : TagNames) (s : RunStats) : List String :=
  (if 0 < s.categorized then ["Total Torrents Categorized: " ++ toString s.categorized] else []) ++
  (if 0 < s.tagged then ["Total Torrents Tagged: " ++ toString s.tagged] else []) ++
  (if 0 < s.rem_unreg then ["Total Unregistered Torrents Removed: " ++ toString s.rem_unreg] else []) ++
  (if 0 < s.tagged_tracker_error then ["Total " ++ t.tracker_error_tag ++ " Torrents Tagged: " ++ toString s.tagged_tracker_error] else []) ++
  (if 0 < s.untagged_tracker_error then ["Total " ++ t.tracker_error_tag ++ " Torrents untagged: " ++ toString s.untagged_tracker_error] else []) ++
  (if 0 < s.added then ["Total Torrents Added: " ++ toString s.added] else []) ++
  (if 0 < s.resumed then ["Total Torrents Resumed: " ++ toString s.resumed] else []) ++
  (if 0 < s.rechecked then ["Total Torrents Rechecked: " ++ toString s.rechecked] else []) ++
  (if 0 < s.deleted then ["Total Torrents Deleted: " ++ toString s.deleted] else []) ++
  (if 0 < s.deleted_contents then ["Total Torrents + Contents Deleted : " ++ toString s.deleted_contents] else []) ++
  (if 0 < s.orphaned then ["Total Orphaned Files: " ++ toString s.orphaned] else []) ++
  (if 0 < s.tagged_noHL then ["Total " ++ t.nohardlinks_tag ++ " Torrents Tagged: " ++ toString s.tagged_noHL] else []) ++
  (if 0 < s.untagged_noHL then ["Total " ++ t.nohardlinks_tag ++ " Torrents untagged: " ++ toString s.untagged_noHL] else []) ++
  (if 0 < s.updated_share_limits then ["Total Share Limits Updated: " ++ toString s.updated_share_limits] else []) ++
  (if 0 < s.cleaned_share_limits then ["Total Torrents Removed from Meeting Share Limits: " ++ toString s.cleaned_share_limits] else []) ++
  (if 0 < s.recycle_emptied then ["Total Files Deleted from Recycle Bin: " ++ toString s.recycle_emptied] else []) ++
  (if 0 < s.orphaned_emptied then ["Total Files Deleted from Orphaned Data: " ++ toString s.orphaned_emptied] else [])

/-- The 17 (counter value, summary line) pairs in the order the source
emits them (src/qbit_manage.py lines 540-573). -/
def code_order_pairs (t : TagNames) (s : RunStats) : List (Nat × String) :=
  [ (s.categorized, "Total Torrents Categorized: " ++ toString s.categorized)
  , (s.tagged, "Total Torrents Tagged: " ++ toString s.tagged)
  , (s.rem_unreg, "Total Unregistered Torrents Removed: " ++ toString s.rem_unreg)
  , (s.tagged_tracker_error, "Total " ++ t.tracker_error_tag ++ " Torrents Tagged: " ++ toString s.tagged_tracker_error)
  , (s.untagged_tracker_error, "Total " ++ t.tracker_error_tag ++ " Torrents untagged: " ++ toString s.untagged_tracker_error)
  , (s.added, "Total Torrents Added: " ++ toString s.added)
  , (s.resumed, "Total Torrents Resumed: " ++ toString s.resumed)
  , (s.rechecked, "Total Torrents Rechecked: " ++ toString s.rechecked)
  , (s.deleted, "Total Torrents Deleted: " ++ toString s.deleted)
  , (s.deleted_contents, "Total Torrents + Contents Deleted : " ++ toString s.deleted_contents)
  , (s.orphaned, "Total Orphaned Files: " ++ toString s.orphaned)
  , (s.tagged_noHL, "Total " ++ t.nohardlinks_tag ++ " Torrents Tagged: " ++ toString s.tagged_noHL)
  , (s.untagged_noHL, "Total " ++ t.nohardlinks_tag ++ " Torrents untagged: " ++ toString s.untagged_noHL)
  , (s.updated_share_limits, "Total Share Limits Updated: " ++ toString s.updated_share_limits)
  , (s.cleaned_share_limits, "Total Torrents Removed from Meeting Share Limits: " ++ toString s.cleaned_share_limits)
  , (s.recycle_emptied, "Total Files Deleted from Recycle Bin: " ++ toString s.recycle_emptied)
  , (s.orphaned_emptied, "Total Files Deleted from Orphaned Data: " ++ toString s.orphaned_emptied) ]

/-- The 17 (counter value, summary line) pairs in the order the spec
documents in its data-model section: categorized, tagged,
tagged-tracker-error, untagged-tracker-error, unregistered-removed,
resumed, rechecked, deleted, deleted-with-contents, orphaned-found,
tagged-no-hardlinks, untagged-no-hardlinks, share-limits-updated,
share-limits-cleaned, recycle-bin-emptied, orphaned-dir-emptied, added.
Written from the spec's words, for comparison with the source order. -/
def spec_order_pairs (t : TagNames) (s : RunStats) : List (Nat × String) :=
  [ (s.categorized, "Total Torrents Categorized: " ++ toString s.categorized)
  , (s.tagged, "Total Torrents Tagged: " ++ toString s.tagged)
  , (s.tagged_tracker_error, "Total " ++ t.tracker_error_tag ++ " Torrents Tagged: " ++ toString s.tagged_tracker_error)
  , (s.untagged_tracker_error, "Total " ++ t.tracker_error_tag ++ " Torrents untagged: " ++ toString s.untagged_tracker_error)
  , (s.rem_unreg, "Total Unregistered Torrents Removed: " ++ toString s.rem_unreg)
  , (s.resumed, "Total Torrents Resumed: " ++ toString s.resumed)
  , (s.rechecked, "Total Torrents Rechecked: " ++ toString s.rechecked)
  , (s.deleted, "Total Torrents Deleted: " ++ toString s.deleted)
  , (s.deleted_contents, "Total Torrents + Contents Deleted : " ++ toString s.deleted_contents)
  , (s.orphaned, "Total Orphaned Files: " ++ toString s.orphaned)
  , (s.tagged_noHL, "Total " ++ t.nohardlinks_tag ++ " Torrents Tagged: " ++ toString s.tagged_noHL)
  , (s.untagged_noHL, "Total " ++ t.nohardlinks_tag ++ " Torrents untagged: " ++ toString s.untagged_noHL)
  , (s.updated_share_limits, "Total Share Limits Updated: " ++ toString s.updated_share_limits)
  , (s.cleaned_share_limits, "Total Torrents Removed from Meeting Share Limits: " ++ toString s.cleaned_share_limits)
  , (s.recycle_emptied, "Total Files Deleted from Recycle Bin: " ++ toString s.recycle_emptied)
  , (s.orphaned_emptied, "Total Files Deleted from Orphaned Data: " ++ toString s.orphaned_emptied)
  , (s.added, "Total Torrents Added: " ++ toString s.added) ]

/-- Keep the line of every pair whose counter is non-zero, preserving
order: the rendering discipline both the spec and the source use. -/
def nonzero_lines (ps : List (Nat × String)) : List String :=
  ps.foldr (fun p acc => if 0 < p.1 then p.2 :: acc else acc) []

/-- The summary the spec predicts: non-zero counters only, each once, in
the spec's documented order. -/
def summary_spec_order (t : TagNames) (s : RunStats) : List String :=
  nonzero_lines (spec_order_pairs t s)

/-- The summary restated over the source's emission order: non-zero
counters only, each once, in the order of `code_order_pairs`. -/
def summary_code_order (t : TagNames) (s : RunStats) : List String :=
  nonzero_lines (code_order_pairs t s)

/-- Concrete tag names used in counterexamples. -/
def tags0 : TagNames := { tracker_error_tag := "issue", nohardlinks_tag := "noHL" }

/-- A stats assignment with exactly the unregistered-removed and
tagged-tracker-error counters non-zero. -/
def stats_ex1 : RunStats :=
  { init_stats with rem_unreg := 1, tagged_tracker_error := 1 }

/-- The `cfg.commands` capability flags consulted by `start`
(src/qbit_manage.py lines 491-531), plus `skip_cleanup`, the capability
the CLI exposes for the two cleanup stages (consulted inside the
external `cfg.cleanup_dirs` collaborator, not by `start` itself). -/
structure Commands where
  cat_update : Bool
  tag_update : Bool
  rem_unregistered : Bool
  tag_tracker_error : Bool
  recheck : Bool
  tag_nohardlinks : Bool
  share_limits : Bool
  rem_orphaned : Bool
  skip_cleanup : Bool
deriving DecidableEq, Repr

/-- The counts returned by the external pipeline collaborators invoked
by `start` (src/qbit_manage.py lines 492-538): `Category(...).stats`,
`Tags(...).stats`, the `RemoveUnregistered` fields, the `ReCheck`
fields, the `TagNoHardLinks` fields, the `ShareLimits` fields,
`RemoveOrphaned(...).stats`, and the two `cfg.cleanup_dirs` results. -/
structure StageResults where
  category_stats : Nat
  tags_stats : Nat
  ru_stats_deleted : Nat
  ru_stats_deleted_contents : Nat
  ru_stats_tagged : Nat
  ru_stats_untagged : Nat
  recheck_stats_resumed : Nat
  recheck_stats_rechecked : Nat
  nohl_stats_tagged : Nat
  nohl_stats_untagged : Nat
  sl_stats_tagged : Nat
  sl_stats_deleted : Nat
  sl_stats_deleted_contents : Nat
  orphaned_stats : Nat
  recycle_cleanup : Nat
  orphaned_cleanup : Nat
deriving DecidableEq, Repr

/-- The nine pipeline stages of a run, one per block of
src/qbit_manage.py lines 489-538. -/
inductive Stage where
  | category
  | tags
  | remove_unregistered
  | recheck
  | tag_nohardlinks
  | share_limits
  | remove_orphaned
  | cleanup_recycle_bin
  | cleanup_orphaned_dir
deriving DecidableEq, Repr

/-- The Set Category block (src/qbit_manage.py lines 491-492). -/
def cat_update_block (c : Commands) (r : StageResults)
    (p : RunStats × List Stage) : RunStats × List Stage :=
  if c.cat_update then
    ({ p.1 with categorized := p.1.categorized + r.category_stats },
      p.2 ++ [Stage.category])
  else p

/-- The Set Tags block (src/qbit_manage.py lines 495-496). -/
def tag_update_block (c : Commands) (r : StageResults)
    (p : RunStats × List Stage) : RunStats × List Stage :=
  if c.tag_update then
    ({ p.1 with tagged := p.1.tagged + r.tags_stats }, p.2 ++ [Stage.tags])
  else p

/-- The Remove Unregistered Torrents and tag errors block
(src/qbit_manage.py lines 499-506). -/
def rem_unregistered_block (c : Commands) (r : StageResults)
    (p : RunStats × List Stage) : RunStats × List Stage :=
  if c.rem_unregistered || c.tag_tracker_error then
    ({ p.1 with
        rem_unreg := p.1.rem_unreg + (r.ru_stats_deleted + r.ru_stats_deleted_contents),
        deleted := p.1.deleted + r.ru_stats_deleted,
        deleted_contents := p.1.deleted_contents + r.ru_stats_deleted_contents,
        tagged_tracker_error := p.1.tagged_tracker_error + r.ru_stats_tagged,
        untagged_tracker_error := p.1.untagged_tracker_error + r.ru_stats_untagged,
        tagged := p.1.tagged + r.ru_stats_tagged },
      p.2 ++ [Stage.remove_unregistered])
  else p

/-- The Recheck Torrents block (src/qbit_manage.py lines 509-512). -/
def recheck_block (c : Commands) (r : StageResults)
    (p : RunStats × List Stage) : RunStats × List Stage :=
  if c.recheck then
    ({ p.1 with
        resumed := p.1.resumed + r.recheck_stats_resumed,
        rechecked := p.1.rechecked + r.recheck_stats_rechecked },
      p.2 ++ [Stage.recheck])
  else p

/-- The Tag NoHardLinks block (src/qbit_manage.py lines 515-519). -/
def tag_nohardlinks_block (c : Commands) (r : StageResults)
    (p : RunStats × List Stage) : RunStats × List Stage :=
  if c.tag_nohardlinks then
    ({ p.1 with
        tagged := p.1.tagged + r.nohl_stats_tagged,
        tagged_noHL := p.1.tagged_noHL + r.nohl_stats_tagged,
        untagged_noHL := p.1.untagged_noHL + r.nohl_stats_untagged },
      p.2 ++ [Stage.tag_nohardlinks])
  else p

/-- The Set Share Limits block (src/qbit_manage.py lines 522-528). -/
def share_limits_block (c : Commands) (r : StageResults)
    (p : RunStats × List Stage) : RunStats × List Stage :=
  if c.share_limits then
    ({ p.1 with
        tagged := p.1.tagged + r.sl_stats_tagged,
        updated_share_limits := p.1.updated_share_limits + r.sl_stats_tagged,
        deleted := p.1.deleted + r.sl_stats_deleted,
        deleted_contents := p.1.deleted_contents + r.sl_stats_deleted_contents,
        cleaned_share_limits :=
          p.1.cleaned_share_limits + (r.sl_stats_deleted + r.sl_stats_deleted_contents) },
      p.2 ++ [Stage.share_limits])
  else p

/-- The Remove Orphaned Files block (src/qbit_manage.py lines 531-532). -/
def rem_orphaned_block (c : Commands) (r : StageResults)
    (p : RunStats × List Stage) : RunStats × List Stage :=
  if c.rem_orphaned then
    ({ p.1 with orphaned := p.1.orphaned + r.orphaned_stats },
      p.2 ++ [Stage.remove_orphaned])
  else p

/-- The Empty RecycleBin call (src/qbit_manage.py line 535): unconditional. -/
def recycle_bin_block (r : StageResults)
    (p : RunStats × List Stage) : RunStats × List Stage :=
  ({ p.1 with recycle_emptied := p.1.recycle_emptied + r.recycle_cleanup },
    p.2 ++ [Stage.cleanup_recycle_bin])

/-- The Empty Orphaned Directory call (src/qbit_manage.py line 538):
unconditional. -/
def orphaned_dir_block (r : StageResults)
    (p : RunStats × List Stage) : RunStats × List Stage :=
  ({ p.1 with orphaned_emptied := p.1.orphaned_emptied + r.orphaned_cleanup },
    p.2 ++ [Stage.cleanup_orphaned_dir])

/-- The pipeline dispatch block of `start` executed when the qBittorrent
manager was acquired (src/qbit_manage.py lines 489-538): the nine
blocks applied in the source's textual order to the zeroed stats.
Returns the final stats and the ordered list of invoked stages. -/
def run_pipeline (c : Commands) (r : StageResults) : RunStats × List Stage :=
  orphaned_dir_block r (recycle_bin_block r (rem_orphaned_block c r
    (share_limits_block c r (tag_nohardlinks_block c r (recheck_block c r
      (rem_unregistered_block c r (tag_update_block c r (cat_update_block c r
        (init_stats, [])))))))))

/-- The stage order the source actually realises: the seven
capability-gated stages in their fixed order, followed by the two
cleanup stages which are invoked unconditionally. -/
def enabled_trace (c : Commands) : List Stage :=
  (if c.cat_update then [Stage.category] else []) ++
  (if c.tag_update then [Stage.tags] else []) ++
  (if c.rem_unregistered || c.tag_tracker_error then [Stage.remove_unregistered] else []) ++
  (if c.recheck then [Stage.recheck] else []) ++
  (if c.tag_nohardlinks then [Stage.tag_nohardlinks] else []) ++
  (if c.share_limits then [Stage.share_limits] else []) ++
  (if c.rem_orphaned then [Stage.remove_orphaned] else []) ++
  [Stage.cleanup_recycle_bin, Stage.cleanup_orphaned_dir]

/-- The stage invocations the claim predicts: every one of the nine
stages, the cleanup stages included, invoked if and only if its
capability is enabled. Written from the spec's words, for comparison
with `run_pipeline`. -/
def claim_trace (c : Commands) : List Stage :=
  (if c.cat_update then [Stage.category] else []) ++
  (if c.tag_update then [Stage.tags] else []) ++
  (if c.rem_unregistered || c.tag_tracker_error then [Stage.remove_unregistered] else []) ++
  (if c.recheck then [Stage.recheck] else []) ++
  (if c.tag_nohardlinks then [Stage.tag_nohardlinks] else []) ++
  (if c.share_limits then [Stage.share_limits] else []) ++
  (if c.rem_orphaned then [Stage.remove_orphaned] else []) ++
  (if !c.skip_cleanup then [Stage.cleanup_recycle_bin] else []) ++
  (if !c.skip_cleanup then [Stage.cleanup_orphaned_dir] else [])

/-- A configuration with every capability disabled (cleanup skipping
requested as well). -/
def cmds_all_off : Commands :=
  { cat_update := false, tag_update := false, rem_unregistered := false
    tag_tracker_error := false, recheck := false, tag_nohardlinks := false
    share_limits := false, rem_orphaned := false, skip_cleanup := true }

/-- Zero counts from every collaborator. -/
def results0 : StageResults :=
  { category_stats := 0, tags_stats := 0, ru_stats_deleted := 0
    ru_stats_deleted_contents := 0, ru_stats_tagged := 0, ru_stats_untagged := 0
    recheck_stats_resumed := 0, recheck_stats_rechecked := 0
    nohl_stats_tagged := 0, nohl_stats_untagged := 0, sl_stats_tagged := 0
    sl_stats_deleted := 0, sl_stats_deleted_contents := 0, orphaned_stats := 0
    recycle_cleanup := 0, orphaned_cleanup := 0 }

/-! ## Schedule parsing and the cron model

`is_valid_cron_syntax` (src/qbit_manage.py lines 248-254) and
`schedule_from_cron` (lines 608-620) delegate to the external
`croniter` library. The library is modelled here by an executable
standard 5-field cron grammar (numeric values, `*`, lists, ranges and
steps; symbolic month/weekday names are outside the model) and a
matcher over a discrete minute-valued clock with the conventional
day-of-month/day-of-week OR rule. Python's `int` constructor is
modelled on decimal digit strings with optional sign and surrounding
whitespace (underscore separators and non-ASCII digits are outside the
model). -/

/-- Characters Python's `str.strip` and the cron field splitter treat
as whitespace here. -/
def is_space (c : Char) : Bool :=
  c = ' ' || c = '\t' || c = '\n' || c = '\r'

/-- Split a character list at every separator matching `p`; separators
are consumed and empty segments kept. -/
def split_on (p : Char → Bool) (cs : List Char) : List (List Char) :=
  cs.foldr
    (fun c acc =>
      if p c then [] :: acc
      else match acc with
        | a :: rest => (c :: a) :: rest
        | [] => [[c]])
    [[]]

/-- Drop whitespace from both ends of a character list (Python
`str.strip`). -/
def strip_spaces (cs : List Char) : List Char :=
  ((cs.dropWhile is_space).reverse.dropWhile is_space).reverse

/-- Value of a non-empty all-digit character list, `none` otherwise. -/
def digits_val (cs : List Char) : Option Nat :=
  if cs ≠ [] && cs.all Char.isDigit then
    some (cs.foldl (fun a c => a * 10 + (c.toNat - 48)) 0)
  else none

/-- Model of Python's `int(s)` on a string: optional surrounding
whitespace, optional single sign, then a non-empty run of decimal
digits. -/
def parse_python_int (s : String) : Option Int :=
  match strip_spaces s.data with
  | [] => none
  | c :: rest =>
    if c = '+' then (digits_val rest).map Int.ofNat
    else if c = '-' then (digits_val rest).map (fun n => -(n : Int))
    else (digits_val (c :: rest)).map Int.ofNat

/-- One parsed cron field: `star` records whether the raw field was
exactly `*` (unrestricted, which matters for the day-of-month /
day-of-week OR rule), and `values` the expanded allowed values. -/
structure CronField where
  star : Bool
  values : List Nat
deriving DecidableEq, Repr

/-- The values `a, a+step, ...` up to `b`. -/
def range_values (a b step : Nat) : List Nat :=
  ((List.range (b + 1 - a)).map (a + ·)).filter (fun v => (v - a) % step = 0)

/-- Parse the base of a cron item (before any `/step`): `*`, a single
value, or an inclusive range, bounded by the field's domain. -/
def parse_cron_base (lo hi : Nat) (cs : List Char) : Option (Nat × Nat) :=
  if cs = ['*'] then some (lo, hi)
  else match split_on (· = '-') cs with
    | [a] =>
      match digits_val a with
      | some v => if lo ≤ v && v ≤ hi then some (v, v) else none
      | none => none
    | [a, b] =>
      match digits_val a, digits_val b with
      | some va, some vb =>
        if lo ≤ va && va ≤ vb && vb ≤ hi then some (va, vb) else none
      | _, _ => none
    | _ => none

/-- Parse one comma-separated cron item, `base` or `base/step`, into its
expanded values. -/
def parse_cron_item (lo hi : Nat) (cs : List Char) : Option (List Nat) :=
  match split_on (· = '/') cs with
  | [base] => (parse_cron_base lo hi base).map (fun p => range_values p.1 p.2 1)
  | [base, st] =>
    match parse_cron_base lo hi base, digits_val st with
    | some p, some k => if k = 0 then none else some (range_values p.1 p.2 k)
    | _, _ => none
  | _ => none

/-- Parse one whole cron field over the domain `[lo, hi]`. -/
def parse_cron_field (lo hi : Nat) (cs : List Char) : Option CronField :=
  if cs = ['*'] then some { star := true, values := range_values lo hi 1 }
  else
    let items := (split_on (· = ',') cs).map (parse_cron_item lo hi)
    if items.all Option.isSome && items ≠ [] then
      some { star := false, values := (items.map (fun o => o.getD [])).flatten }
    else none

/-- A parsed 5-field cron expression. -/
structure Cron where
  minute : CronField
  hour : CronField
  dom : CronField
  month : CronField
  dow : CronField
deriving DecidableEq, Repr

/-- Parse a 5-field cron expression: minute 0-59, hour 0-23,
day-of-month 1-31, month 1-12, day-of-week 0-7 (0 and 7 both Sunday). -/
def parse_cron (s : String) : Option Cron :=
  match (split_on is_space s.data).filter (· ≠ []) with
  | [mi, h, d, mo, w] =>
    match parse_cron_field 0 59 mi, parse_cron_field 0 23 h, parse_cron_field 1 31 d,
        parse_cron_field 1 12 mo, parse_cron_field 0 7 w with
    | some fmi, some fh, some fd, some fmo, some fw =>
      some { minute := fmi, hour := fh, dom := fd, month := fmo, dow := fw }
    | _, _, _, _, _ => none
  | _ => none

/-- Model of `is_valid_cron_syntax` (src/qbit_manage.py lines 248-254):
the `croniter` constructor accepts the expression or raises. -/
def is_valid_cron (s : String) : Bool :=
  (parse_cron s).isSome

/-- The schedule value after the startup validation block: either the
integer branch (line 352 — note: any integer, `int(sch)` does not check
positivity) or the cron branch. -/
inductive RawSchedule where
  | interval (m : Int)
  | cron (c : Cron)
deriving DecidableEq, Repr

/-- Model of the startup schedule validation (src/qbit_manage.py lines
350-356): try `int(sch)`; on failure fall back to
`is_valid_cron_syntax`; if both fail the process prints a diagnostic
and exits non-zero before any run (`none` here). -/
def validate_schedule (raw : String) : Option RawSchedule :=
  match parse_python_int raw with
  | some n => some (RawSchedule.interval n)
  | none =>
    match parse_cron raw with
    | some c => some (RawSchedule.cron c)
    | none => none

/-- The acceptance predicate the claim states: the raw string is a
positive integer (minutes at least 1) or a syntactically valid cron
expression. Written from the spec's words, for comparison with
`validate_schedule`. -/
def claim_schedule_ok (raw : String) : Bool :=
  (match parse_python_int raw with
    | some n => decide (1 ≤ n)
    | none => false) || is_valid_cron raw

/-! ## The clock, cron matching, and rearming

Times are minutes since the Unix epoch. The `schedule` library's job
table is modelled by the list of pending jobs' fire times;
`schedule.clear()` empties it and `schedule.every(...).do(...)`
installs one job. -/

/-- A wall-clock instant decomposed for cron matching: calendar date
(proleptic Gregorian, from the standard civil-from-days conversion),
time of day, and day of week with 0 = Sunday. -/
structure DateTime where
  year : Nat
  month : Nat
  day : Nat
  hour : Nat
  minute : Nat
  dow : Nat
deriving DecidableEq, Repr

/-- Gregorian calendar date of day number `z0` counted from 1970-01-01
(the standard civil-from-days algorithm): (year, month, day). -/
def civil_from_days (z0 : Nat) : Nat × Nat × Nat :=
  let z := z0 + 719468
  let era := z / 146097
  let doe := z % 146097
  let yoe := (doe - doe / 1460 + doe / 36524 - doe / 146097) / 365
  let y := yoe + era * 400
  let doy := doe - (365 * yoe + yoe / 4 - yoe / 100)
  let mp := (5 * doy + 2) / 153
  let d := doy - (153 * mp + 2) / 5 + 1
  let m := if mp < 10 then mp + 3 else mp - 9
  (if m ≤ 2 then y + 1 else y, m, d)

/-- Decompose minutes since the epoch into a `DateTime`
(1970-01-01 was a Thursday, hence the offset 4 for the weekday). -/
def minutes_to_datetime (t : Nat) : DateTime :=
  let days := t / 60 / 24
  let ymd := civil_from_days days
  { year := ymd.1, month := ymd.2.1, day := ymd.2.2
    hour := t / 60 % 24, minute := t % 60, dow := (days + 4) % 7 }

/-- Whether a value satisfies one cron field. -/
def field_matches (f : CronField) (v : Nat) : Bool :=
  f.star || f.values.contains v

/-- Day-of-week matching: 0 and 7 both denote Sunday. -/
def dow_matches (f : CronField) (v : Nat) : Bool :=
  f.star || f.values.contains v || (decide (v = 0) && f.values.contains 7)

/-- Whether the instant `t` (minutes since the epoch) satisfies a cron
expression: minute, hour and month must all match, and the day is
accepted by the conventional rule — when both day-of-month and
day-of-week are restricted they combine with OR, otherwise both must
match (an unrestricted field matches everything). -/
def cron_matches (c : Cron) (t : Nat) : Bool :=
  let d := minutes_to_datetime t
  field_matches c.minute d.minute && field_matches c.hour d.hour &&
    field_matches c.month d.month &&
    (if !c.dom.star && !c.dow.star then
      field_matches c.dom d.day || dow_matches c.dow d.dow
    else
      field_matches c.dom d.day && dow_matches c.dow d.dow)

/-- Linear search for the first matching minute at or after `t`,
bounded by `fuel`. -/
def find_next (c : Cron) : Nat → Nat → Option Nat
  | 0, _ => none
  | fuel + 1, t => if cron_matches c t then some t else find_next c fuel (t + 1)

/-- Model of `croniter(expr, base).get_next(datetime)`: the first
matching minute strictly after `now`, searched up to 366 days out
(`none` models the library failing to produce an occurrence, which the
source turns into a fatal exit). -/
def cron_next (c : Cron) (now : Nat) : Option Nat :=
  find_next c 527040 (now + 1)

/-- The `schedule` library's job table: fire times of pending jobs. -/
structure ScheduleState where
  jobs : List Nat
deriving DecidableEq, Repr

/-- Model of `schedule_from_cron` (src/qbit_manage.py lines 608-620):
clear the job table, compute the next cron occurrence after now, and
install one job firing then (`schedule.every(delay).seconds`); on a
cron evaluation failure the source logs and exits, modelled by
`none`. -/
def schedule_from_cron (c : Cron) (now : Nat) : Option (Nat × ScheduleState) :=
  match cron_next c now with
  | none => none
  | some t => some (t, { jobs := [t] })

/-- Model of `schedule_every_x_minutes` (src/qbit_manage.py lines
623-627): clear the job table, install one job firing `m` minutes from
now (`schedule.every(min).minutes`), and return `now + m minutes` as
the next run time. -/
def schedule_every_x_minutes (m : Nat) (now : Nat) : Nat × ScheduleState :=
  (now + m, { jobs := [now + m] })

/-- The all-star cron expression, as parsed from "* * * * *". -/
def star_field (lo hi : Nat) : CronField :=
  { star := true, values := range_values lo hi 1 }

/-- The parsed form of "* * * * *". -/
def cron_star : Cron :=
  { minute := star_field 0 59, hour := star_field 0 23, dom := star_field 1 31
    month := star_field 1 12, dow := star_field 0 7 }

/-! ## The run orchestrator `start` and the sequencer `start_loop` -/

/-- The scheduling mode `finished_run` dispatches on
(src/qbit_manage.py lines 461-469): the validated schedule is either a
fixed interval in minutes (taken non-negative here; the claims quantify
over positive intervals) or a parsed cron expression. -/
inductive SchedMode where
  | interval (m : Nat)
  | cron (c : Cron)
deriving DecidableEq, Repr

/-- Model of the closure `finished_run` inside `start`
(src/qbit_manage.py lines 456-477), restricted to what it returns and
does to the job table: in run-once mode the next run is `None` and the
job table is untouched; in scheduled mode the next run time is computed
and the schedule rearmed per the mode (`none` models the fatal exit on
a cron evaluation failure at rearm time). -/
def finished_run (run_once : Bool) (mode : SchedMode) (st0 : ScheduleState)
    (now : Nat) : Option (Option Nat × ScheduleState) :=
  if run_once then some (none, st0)
  else
    match mode with
    | SchedMode.cron c => (schedule_from_cron c now).map (fun p => (some p.1, p.2))
    | SchedMode.interval m =>
      let p := schedule_every_x_minutes m now
      some (some p.1, p.2)

/-- The observable outcome of one `start` call: final stats, rendered
summary, invoked stages, computed next run, job table after rearming,
and whether the notifier (webhooks) was invoked. -/
structure RunOutcome where
  stats : RunStats
  summary : List String
  invoked : List Stage
  next_run : Option Nat
  sched : ScheduleState
  notified : Bool
deriving DecidableEq, Repr

/-- Model of `start` (src/qbit_manage.py lines 423-581). `acq = none`
models a configuration-acquisition failure (lines 479-487): the
exception is logged, `finished_run` still runs — computing the next run
and rearming — and `start` returns with the zeroed stats and without
the webhook call. `acq = some (c, r)` models successful acquisition:
the pipeline runs, the summary is built, `finished_run` runs, and the
webhooks fire. The overall `none` models the fatal exit on a cron
failure at rearm time. -/
def start (run_once : Bool) (mode : SchedMode) (st0 : ScheduleState)
    (tn : TagNames) (acq : Option (Commands × StageResults)) (now : Nat) :
    Option RunOutcome :=
  match acq with
  | none =>
    match finished_run run_once mode st0 now with
    | none => none
    | some (nr, st) =>
      some { stats := init_stats, summary := [], invoked := [], next_run := nr
             sched := st, notified := false }
  | some (c, r) =>
    let p := run_pipeline c r
    match finished_run run_once mode st0 now with
    | none => none
    | some (nr, st) =>
      some { stats := p.1, summary := stats_summary tn p.1, invoked := p.2
             next_run := nr, sched := st, notified := true }

/-- Model of `start_loop` (src/qbit_manage.py lines 405-421): with a
single configuration file, one `start` call; with several, one `start`
call per file in list order (the logging-context switching around each
call is not observable here). Returns each configuration identifier
paired with its run's outcome. -/
def start_loop (configs : List String) (run_once : Bool) (mode : SchedMode)
    (st0 : ScheduleState) (tn : TagNames)
    (acq : String → Option (Commands × StageResults)) (now : Nat) :
    List (String × Option RunOutcome) :=
  match configs with
  | [cf] => [(cf, start run_once mode st0 tn (acq cf) now)]
  | cfs => cfs.map (fun cf => (cf, start run_once mode st0 tn (acq cf) now))

/-- Every capability enabled. -/
def cmds_all_on : Commands :=
  { cat_update := true, tag_update := true, rem_unregistered := true
    tag_tracker_error := true, recheck := true, tag_nohardlinks := true
    share_limits := true, rem_orphaned := true, skip_cleanup := false }

/-- An acquisition collaborator that fails exactly on the second of
three configuration files. -/
def acq_fail_second (cf : String) : Option (Commands × StageResults) :=
  if cf = "b.yml" then none else some (cmds_all_on, results0)

/-! ## The top-level polling loop and startup

The `__main__` loop (src/qbit_manage.py lines 682-687) polls
`killer.kill_now` at the top of each iteration, runs any due job
synchronously via `schedule.run_pending()` — a full run: pipeline,
rearm inside `finished_run`, then the webhook notifier — and sleeps.
Modelled from the spec: `GracefulKiller` (modules/util, not under
src/) is the two-state shutdown controller whose signal handler only
sets a flag, so a termination request during a run takes effect at the
next flag poll and never interrupts the run itself. -/

/-- Observable actions of the polling loop: a due run starting, the
rearm inside that run, its notifier call, the sleep of the poll tick,
and the clean exit taken when the kill flag is observed. -/
inductive LoopEvent where
  | run_started
  | rearmed
  | notified
  | slept
  | exited
deriving DecidableEq, Repr

/-- The `while not killer.kill_now` loop (src/qbit_manage.py lines
682-687) over a finite input trace. Each iteration's input says whether
a scheduled job is due this tick and whether a termination signal
arrives during the iteration (mid-run included); the signal only raises
the flag, observed at the next iteration's check. -/
def main_loop : List (Bool × Bool) → Bool → List LoopEvent
  | _, true => [LoopEvent.exited]
  | [], false => []
  | (due, sig) :: rest, false =>
    (if due then [LoopEvent.run_started, LoopEvent.rearmed, LoopEvent.notified]
      else []) ++ LoopEvent.slept :: main_loop rest sig

/-- An event list is well formed when every started run completes —
rearm then notifier immediately follow — and `exited` can only be the
final event. -/
def run_blocks_complete : List LoopEvent → Bool
  | [] => true
  | [LoopEvent.exited] => true
  | LoopEvent.run_started :: LoopEvent.rearmed :: LoopEvent.notified :: l =>
    run_blocks_complete l
  | LoopEvent.slept :: l => run_blocks_complete l
  | _ => false

/-- Observable actions of the scheduled-mode startup sequence. -/
inductive StartupEvent where
  | rearmed (fire_at : Nat)
  | slept (seconds : Nat)
  | ran_first (at_time : Nat)
deriving DecidableEq, Repr

/-- Model of the scheduled-mode startup (src/qbit_manage.py lines
663-680). Cron branch: rearm from the cron expression and fall through
to the polling loop — no sleep, no immediate run (the first run happens
when the installed job fires). Interval branch: rearm, sleep the
startup delay when it is non-zero, then run `start_loop` immediately.
Returns the emitted events and the time the first run begins (for cron,
the installed job's fire time); `none` models the fatal exit on cron
evaluation failure. -/
def scheduled_startup (mode : SchedMode) (delay : Nat) (now : Nat) :
    Option (List StartupEvent × Nat) :=
  match mode with
  | SchedMode.cron c =>
    match schedule_from_cron c now with
    | none => none
    | some (t, _) => some ([StartupEvent.rearmed t], t)
  | SchedMode.interval m =>
    let p := schedule_every_x_minutes m now
    some (StartupEvent.rearmed p.1 ::
      ((if delay ≠ 0 then [StartupEvent.slept delay] else []) ++
        [StartupEvent.ran_first (now + delay)]),
      now + delay)

/-! ## Theorems -/

lemma if_singleton_append {c : Prop} [Decidable c] (a : String) (l : List String) :
    (if c then [a] else []) ++ l = if c then a :: l else l := by
  split <;> simp

lemma if_cons_append {c : Prop} [Decidable c] (a : String) (l r : List String) :
    (if c then a :: l else l) ++ r = if c then a :: (l ++ r) else l ++ r := by
  split <;> simp

/-- C1 counterexample: with the unregistered-removed and
tagged-tracker-error counters both set to 1 and everything else zero,
the summary rendered by `start` is not the summary predicted by the
spec's documented counter order — the source emits the
unregistered-removed line before the tracker-error line, while the spec
order puts tagged-tracker-error first (and puts `added` last, where the
source emits it sixth). -/
theorem summary_spec_order_counterexample :
    stats_summary tags0 stats_ex1 ≠ summary_spec_order tags0 stats_ex1 := by
  decide

/-- C1 (amended): at the end of a run the rendered summary contains
exactly one "Total <action>: <count>" line per counter whose value is
non-zero, each such counter once and zero counters omitted, in the
order the source emits them: categorized, tagged, unregistered-removed,
tagged-tracker-error, untagged-tracker-error, added, resumed, rechecked,
deleted, deleted-with-contents, orphaned-found, tagged-no-hardlinks,
untagged-no-hardlinks, share-limits-updated, share-limits-cleaned,
recycle-bin-emptied, orphaned-dir-emptied — for every assignment of
non-negative values to the counters. -/
theorem summary_nonzero_once_in_code_order (t : TagNames) (s : RunStats) :
    stats_summary t s = summary_code_order t s := by
  simp only [stats_summary, summary_code_order, nonzero_lines, code_order_pairs,
    List.foldr_cons, List.foldr_nil, List.append_assoc, if_singleton_append,
    if_cons_append, List.nil_append]

lemma cat_update_block_fst (c : Commands) (r : StageResults) (p : RunStats × List Stage) :
    (cat_update_block c r p).1 =
      { p.1 with categorized :=
          p.1.categorized + if c.cat_update then r.category_stats else 0 } := by
  unfold cat_update_block; split <;> simp

lemma cat_update_block_snd (c : Commands) (r : StageResults) (p : RunStats × List Stage) :
    (cat_update_block c r p).2 =
      p.2 ++ if c.cat_update then [Stage.category] else [] := by
  unfold cat_update_block; split <;> simp

lemma tag_update_block_fst (c : Commands) (r : StageResults) (p : RunStats × List Stage) :
    (tag_update_block c r p).1 =
      { p.1 with tagged := p.1.tagged + if c.tag_update then r.tags_stats else 0 } := by
  unfold tag_update_block; split <;> simp

lemma tag_update_block_snd (c : Commands) (r : StageResults) (p : RunStats × List Stage) :
    (tag_update_block c r p).2 =
      p.2 ++ if c.tag_update then [Stage.tags] else [] := by
  unfold tag_update_block; split <;> simp

lemma rem_unregistered_block_fst (c : Commands) (r : StageResults) (p : RunStats × List Stage) :
    (rem_unregistered_block c r p).1 =
      { p.1 with
          rem_unreg := p.1.rem_unreg + if c.rem_unregistered || c.tag_tracker_error then
            r.ru_stats_deleted + r.ru_stats_deleted_contents else 0,
          deleted := p.1.deleted + if c.rem_unregistered || c.tag_tracker_error then
            r.ru_stats_deleted else 0,
          deleted_contents := p.1.deleted_contents +
            if c.rem_unregistered || c.tag_tracker_error then r.ru_stats_deleted_contents else 0,
          tagged_tracker_error := p.1.tagged_tracker_error +
            if c.rem_unregistered || c.tag_tracker_error then r.ru_stats_tagged else 0,
          untagged_tracker_error := p.1.untagged_tracker_error +
            if c.rem_unregistered || c.tag_tracker_error then r.ru_stats_untagged else 0,
          tagged := p.1.tagged +
            if c.rem_unregistered || c.tag_tracker_error then r.ru_stats_tagged else 0 } := by
  unfold rem_unregistered_block; split <;> simp

lemma rem_unregistered_block_snd (c : Commands) (r : StageResults) (p : RunStats × List Stage) :
    (rem_unregistered_block c r p).2 =
      p.2 ++ if c.rem_unregistered || c.tag_tracker_error then
        [Stage.remove_unregistered] else [] := by
  unfold rem_unregistered_block; split <;> simp_all

lemma recheck_block_fst (c : Commands) (r : StageResults) (p : RunStats × List Stage) :
    (recheck_block c r p).1 =
      { p.1 with
          resumed := p.1.resumed + if c.recheck then r.recheck_stats_resumed else 0,
          rechecked := p.1.rechecked + if c.recheck then r.recheck_stats_rechecked else 0 } := by
  unfold recheck_block; split <;> simp

lemma recheck_block_snd (c : Commands) (r : StageResults) (p : RunStats × List Stage) :
    (recheck_block c r p).2 =
      p.2 ++ if c.recheck then [Stage.recheck] else [] := by
  unfold recheck_block; split <;> simp

lemma tag_nohardlinks_block_fst (c : Commands) (r : StageResults) (p : RunStats × List Stage) :
    (tag_nohardlinks_block c r p).1 =
      { p.1 with
          tagged := p.1.tagged + if c.tag_nohardlinks then r.nohl_stats_tagged else 0,
          tagged_noHL := p.1.tagged_noHL + if c.tag_nohardlinks then r.nohl_stats_tagged else 0,
          untagged_noHL := p.1.untagged_noHL +
            if c.tag_nohardlinks then r.nohl_stats_untagged else 0 } := by
  unfold tag_nohardlinks_block; split <;> simp

lemma tag_nohardlinks_block_snd (c : Commands) (r : StageResults) (p : RunStats × List Stage) :
    (tag_nohardlinks_block c r p).2 =
      p.2 ++ if c.tag_nohardlinks then [Stage.tag_nohardlinks] else [] := by
  unfold tag_nohardlinks_block; split <;> simp

lemma share_limits_block_fst (c : Commands) (r : StageResults) (p : RunStats × List Stage) :
    (share_limits_block c r p).1 =
      { p.1 with
          tagged := p.1.tagged + if c.share_limits then r.sl_stats_tagged else 0,
          updated_share_limits := p.1.updated_share_limits +
            if c.share_limits then r.sl_stats_tagged else 0,
          deleted := p.1.deleted + if c.share_limits then r.sl_stats_deleted else 0,
          deleted_contents := p.1.deleted_contents +
            if c.share_limits then r.sl_stats_deleted_contents else 0,
          cleaned_share_limits := p.1.cleaned_share_limits +
            if c.share_limits then r.sl_stats_deleted + r.sl_stats_deleted_contents else 0 } := by
  unfold share_limits_block; split <;> simp

lemma share_limits_block_snd (c : Commands) (r : StageResults) (p : RunStats × List Stage) :
    (share_limits_block c r p).2 =
      p.2 ++ if c.share_limits then [Stage.share_limits] else [] := by
  unfold share_limits_block; split <;> simp

lemma rem_orphaned_block_fst (c : Commands) (r : StageResults) (p : RunStats × List Stage) :
    (rem_orphaned_block c r p).1 =
      { p.1 with orphaned := p.1.orphaned + if c.rem_orphaned then r.orphaned_stats else 0 } := by
  unfold rem_orphaned_block; split <;> simp

lemma rem_orphaned_block_snd (c : Commands) (r : StageResults) (p : RunStats × List Stage) :
    (rem_orphaned_block c r p).2 =
      p.2 ++ if c.rem_orphaned then [Stage.remove_orphaned] else [] := by
  unfold rem_orphaned_block; split <;> simp

/-- C3 counterexample: with every capability disabled (cleanup
explicitly skipped), the claim predicts that no stage is invoked, but
`start` still invokes the two `cfg.cleanup_dirs` stages — the recycle
bin and orphaned-directory cleanups are not gated in the orchestrator. -/
theorem pipeline_gating_counterexample :
    (run_pipeline cmds_all_off results0).2 ≠ claim_trace cmds_all_off ∧
      (run_pipeline cmds_all_off results0).2 =
        [Stage.cleanup_recycle_bin, Stage.cleanup_orphaned_dir] ∧
      claim_trace cmds_all_off = [] := by
  refine ⟨by decide, by decide, by decide⟩

/-- C3 (amended): the seven maintenance stages (category update, tag
update, unregistered-removal/tracker-error tagging, recheck,
hard-link-absence tagging, share-limit enforcement, orphaned-file
detection) are each invoked if and only if their capability is enabled,
in that fixed order, and the recycle-bin and orphaned-directory cleanup
stages are then always invoked, in that order, regardless of the
cleanup capability (skipping is delegated to the cleanup collaborator). -/
theorem pipeline_stage_gating_and_order (c : Commands) (r : StageResults) :
    (run_pipeline c r).2 = enabled_trace c := by
  simp only [run_pipeline, enabled_trace, orphaned_dir_block, recycle_bin_block,
    rem_orphaned_block_snd, share_limits_block_snd, tag_nohardlinks_block_snd,
    recheck_block_snd, rem_unregistered_block_snd, tag_update_block_snd,
    cat_update_block_snd, List.append_assoc, List.nil_append]
  rfl

/-- C10: after the pipeline, the aggregate tagged counter is exactly the
sum of the tag counts of the tag-update stage, the tracker-error tagging
of the unregistered-removal stage, the no-hardlink tagging stage and the
share-limit stage (each contributing only when invoked), and the
unregistered-removed counter is exactly that stage's deleted plus
deleted-with-contents counts. -/
theorem tagged_counter_aggregation (c : Commands) (r : StageResults) :
    (run_pipeline c r).1.tagged =
      (if c.tag_update then r.tags_stats else 0) +
      (if c.rem_unregistered || c.tag_tracker_error then r.ru_stats_tagged else 0) +
      (if c.tag_nohardlinks then r.nohl_stats_tagged else 0) +
      (if c.share_limits then r.sl_stats_tagged else 0) ∧
    (run_pipeline c r).1.rem_unreg =
      (if c.rem_unregistered || c.tag_tracker_error then
        r.ru_stats_deleted + r.ru_stats_deleted_contents else 0) := by
  simp only [run_pipeline, orphaned_dir_block, recycle_bin_block,
    rem_orphaned_block_fst, share_limits_block_fst, tag_nohardlinks_block_fst,
    recheck_block_fst, rem_unregistered_block_fst, tag_update_block_fst,
    cat_update_block_fst, init_stats]
  constructor <;> simp

/-- C2 counterexample: the raw schedule string "0" is neither a
positive integer (minutes at least 1) nor a valid cron expression, yet
startup validation accepts it — `int("0")` succeeds, so the positivity
the claim asserts is never checked (negative strings such as "-5" are
accepted too). -/
theorem schedule_validation_counterexample :
    (validate_schedule "0").isSome = true ∧ claim_schedule_ok "0" = false := by
  refine ⟨by decide, by decide⟩

/-- C2 (amended): startup validation accepts a raw schedule string if
and only if it parses as an integer — of any sign, zero and negative
values included — or as a syntactically valid 5-field cron expression;
every other string is rejected with a fatal configuration error before
any run is attempted. -/
theorem schedule_validation_accepts_int_or_cron (raw : String) :
    (validate_schedule raw).isSome = true ↔
      ((parse_python_int raw).isSome = true ∨ is_valid_cron raw = true) := by
  unfold validate_schedule is_valid_cron
  cases h : parse_python_int raw <;> cases h2 : parse_cron raw <;> simp [h, h2]

/-- C6: for every positive interval `m` and every now, the computed
next run for a fixed-interval schedule is `now + m` minutes, and
rearming leaves exactly one pending job firing at that time. -/
theorem fixed_interval_next_run (m now : Nat) (_h : 1 ≤ m) :
    (schedule_every_x_minutes m now).1 = now + m ∧
      (schedule_every_x_minutes m now).2.jobs = [now + m] :=
  ⟨rfl, rfl⟩

/-- Witness for C6 at `m = 5`, `now = 0`. -/
theorem fixed_interval_next_run_witness :
    1 ≤ 5 ∧ ((schedule_every_x_minutes 5 0).1 = 0 + 5 ∧
      (schedule_every_x_minutes 5 0).2.jobs = [0 + 5]) :=
  ⟨by decide, fixed_interval_next_run 5 0 (by decide)⟩

lemma find_next_sound (c : Cron) :
    ∀ (fuel s t : Nat), find_next c fuel s = some t →
      s ≤ t ∧ cron_matches c t = true := by
  intro fuel
  induction fuel with
  | zero => intro s t h; simp [find_next] at h
  | succ n ih =>
    intro s t h
    unfold find_next at h
    by_cases hm : cron_matches c s = true
    · rw [if_pos hm] at h
      cases h
      exact ⟨Nat.le_refl s, hm⟩
    · rw [if_neg hm] at h
      rcases ih (s + 1) t h with ⟨hle, hmt⟩
      exact ⟨Nat.le_of_succ_le hle, hmt⟩

/-- C7: for every syntactically valid cron expression and every now,
when rearming from cron produces a next run time, that time is strictly
in the future and satisfies the expression's five field constraints
(minute, hour, day-of-month, month, day-of-week, with day-of-month and
day-of-week combined by OR when both are restricted — the day rule is
part of `cron_matches`), and the single installed job fires then. -/
theorem cron_next_run_future_and_matching (expr : String) (c : Cron)
    (now t : Nat) (st : ScheduleState)
    (_hparse : parse_cron expr = some c)
    (hrun : schedule_from_cron c now = some (t, st)) :
    now < t ∧ cron_matches c t = true ∧ st.jobs = [t] := by
  unfold schedule_from_cron at hrun
  cases hnext : cron_next c now with
  | none => rw [hnext] at hrun; cases hrun
  | some t2 =>
    rw [hnext] at hrun
    cases hrun
    unfold cron_next at hnext
    rcases find_next_sound c _ _ _ hnext with ⟨hle, hm⟩
    exact ⟨Nat.lt_of_succ_le hle, hm, rfl⟩

/-- Witness for C7 on the expression "* * * * *" at `now = 0`: the next
run is minute 1, strictly future and matching. -/
theorem cron_next_run_future_and_matching_witness :
    0 < 1 ∧ cron_matches cron_star 1 = true ∧
      (ScheduleState.mk [1]).jobs = [1] :=
  cron_next_run_future_and_matching "* * * * *" cron_star 0 1
    (ScheduleState.mk [1]) (by decide) (by decide)

/-- C4: in scheduled mode, a run whose configuration acquisition fails
advances no stats (every counter stays zero), still computes the next
run time and rearms the schedule exactly as a successful run would, and
returns normally so the process continues — for a fixed interval
unconditionally, and for cron whenever the cron evaluation yields a
next occurrence. -/
theorem config_failure_no_stats_schedule_advances
    (tn : TagNames) (st0 : ScheduleState) (now : Nat) :
    (∀ m : Nat, start false (SchedMode.interval m) st0 tn none now =
      some { stats := init_stats, summary := [], invoked := []
             next_run := some (now + m), sched := { jobs := [now + m] }
             notified := false }) ∧
    (∀ (c : Cron) (nt : Nat), cron_next c now = some nt →
      start false (SchedMode.cron c) st0 tn none now =
        some { stats := init_stats, summary := [], invoked := []
               next_run := some nt, sched := { jobs := [nt] }
               notified := false }) := by
  constructor
  · intro m; rfl
  · intro c nt h
    simp [start, finished_run, schedule_from_cron, h]

/-- Witness for C4 in cron mode with "* * * * *" at `now = 0`. -/
theorem config_failure_no_stats_schedule_advances_witness :
    start false (SchedMode.cron cron_star) (ScheduleState.mk []) tags0 none 0 =
      some { stats := init_stats, summary := [], invoked := []
             next_run := some 1, sched := { jobs := [1] }, notified := false } :=
  (config_failure_no_stats_schedule_advances tags0 (ScheduleState.mk []) 0).2
    cron_star 1 (by decide)

/-- C5: the sequencer invokes the orchestrator exactly once per entry
of the configuration set, strictly in the set's order — each entry's
outcome a function of that entry alone — and a configuration
acquisition failure inside one entry does not prevent later entries: in
particular, with three identifiers where the second fails, the first
and third still each get a full run (pipeline invoked, notifier called)
while the second runs no stage and skips its notifier. -/
theorem sequencer_once_per_entry_in_order (configs : List String)
    (run_once : Bool) (mode : SchedMode) (st0 : ScheduleState) (tn : TagNames)
    (acq : String → Option (Commands × StageResults)) (now : Nat) :
    start_loop configs run_once mode st0 tn acq now =
      configs.map (fun cf => (cf, start run_once mode st0 tn (acq cf) now)) ∧
    (start_loop configs run_once mode st0 tn acq now).map Prod.fst = configs ∧
    (start_loop ["a.yml", "b.yml", "c.yml"] false (SchedMode.interval 60)
        (ScheduleState.mk []) tags0 acq_fail_second 0).map
        (fun p => p.2.map (fun o => (o.notified, o.invoked))) =
      [some (true, enabled_trace cmds_all_on), some (false, []),
        some (true, enabled_trace cmds_all_on)] := by
  refine ⟨?_, ?_, by decide⟩
  · cases configs with
    | nil => rfl
    | cons a tl => cases tl <;> rfl
  · cases configs with
    | nil => rfl
    | cons a tl =>
      cases tl with
      | nil => rfl
      | cons b tl2 =>
        simp [start_loop, List.map_map, Function.comp_def]

lemma main_loop_kill (trace : List (Bool × Bool)) :
    main_loop trace true = [LoopEvent.exited] := by
  cases trace <;> rfl

lemma main_loop_blocks_complete :
    ∀ (trace : List (Bool × Bool)) (kill : Bool),
      run_blocks_complete (main_loop trace kill) = true := by
  intro trace
  induction trace with
  | nil => intro kill; cases kill <;> rfl
  | cons p rest ih =>
    intro kill
    cases kill with
    | true => rfl
    | false =>
      rcases p with ⟨due, sig⟩
      cases due <;> simpa [main_loop, run_blocks_complete] using ih sig

/-- C8: the loop checks the shutdown flag only between runs. Every
event trace of the loop is well formed — a started run always finishes
its rearm and its notifier call, and exit can only be the last event,
so a termination request never interrupts a run and nothing (no run, no
rearm) happens after the exit; a flag already set at the check produces
an immediate clean exit; and a termination request arriving during an
iteration lets that iteration's run complete, notifier included, after
which the very next check exits without starting a new run. -/
theorem shutdown_polled_only_between_runs (trace : List (Bool × Bool))
    (kill due : Bool) (rest : List (Bool × Bool)) :
    run_blocks_complete (main_loop trace kill) = true ∧
    (kill = true → main_loop trace kill = [LoopEvent.exited]) ∧
    main_loop ((due, true) :: rest) false =
      (if due then [LoopEvent.run_started, LoopEvent.rearmed, LoopEvent.notified]
        else []) ++ [LoopEvent.slept, LoopEvent.exited] := by
  refine ⟨main_loop_blocks_complete trace kill, ?_, ?_⟩
  · intro h; cases h; exact main_loop_kill trace
  · cases due <;> simp [main_loop, main_loop_kill]

/-- Witness for C8: with the flag already set the loop exits at once. -/
theorem shutdown_polled_only_between_runs_witness :
    true = true ∧ main_loop [(true, false)] true = [LoopEvent.exited] :=
  ⟨rfl, (shutdown_polled_only_between_runs [(true, false)] true true []).2.1 rfl⟩

/-- C9: with a startup delay of `D` seconds in interval mode, the first
run begins no earlier than `D` seconds after the loop enters scheduled
mode (here: exactly at `now + D`); in cron mode the startup outcome is
the same whatever the configured delay, and its event sequence contains
no sleep at all — the asymmetry of the source is preserved. -/
theorem startup_delay_interval_only (m delay now : Nat) (c : Cron) :
    (∀ evs ft, scheduled_startup (SchedMode.interval m) delay now = some (evs, ft) →
      now + delay ≤ ft ∧ StartupEvent.ran_first ft ∈ evs) ∧
    scheduled_startup (SchedMode.cron c) delay now =
      scheduled_startup (SchedMode.cron c) 0 now ∧
    (∀ evs ft d, scheduled_startup (SchedMode.cron c) delay now = some (evs, ft) →
      StartupEvent.slept d ∉ evs) := by
  refine ⟨?_, ?_, ?_⟩
  · intro evs ft h
    unfold scheduled_startup at h
    simp only [Option.some.injEq, Prod.mk.injEq] at h
    rcases h with ⟨hevs, hft⟩
    subst hft
    constructor
    · exact Nat.le_refl _
    · rw [← hevs]; simp
  · unfold scheduled_startup schedule_from_cron
    cases cron_next c now <;> rfl
  · intro evs ft d h
    simp only [scheduled_startup] at h
    cases hs : schedule_from_cron c now with
    | none => rw [hs] at h; cases h
    | some p =>
      rw [hs] at h
      simp only [Option.some.injEq, Prod.mk.injEq] at h
      rcases h with ⟨hevs, _⟩
      rw [← hevs]; simp

/-- Witness for C9 at `m = 1`, `delay = 7`, `now = 0` and the cron
expression "* * * * *". -/
theorem startup_delay_interval_only_witness :
    (0 + 7 ≤ 7 ∧ StartupEvent.ran_first 7 ∈
      (StartupEvent.rearmed 1 :: [StartupEvent.slept 7] ++
        [StartupEvent.ran_first 7])) ∧
    StartupEvent.slept 7 ∉ [StartupEvent.rearmed 1] :=
  ⟨(startup_delay_interval_only 1 7 0 cron_star).1
      (StartupEvent.rearmed 1 :: [StartupEvent.slept 7] ++ [StartupEvent.ran_first 7]) 7
      (by decide),
    (startup_delay_interval_only 1 7 0 cron_star).2.2
      [StartupEvent.rearmed 1] 1 7 (by decide)⟩

end QbitManage
